import Mathlib

/-
Shallow embedding of the interface inventory, ownership resolution and
removal engine of the nicman repository (src/backend/runtime.rs,
src/backend/owner_detection.rs, src/backend/removal.rs, src/model.rs,
src/utils/command.rs).

External observations (command invocations, file reads, environment
variables) are collected in an explicit environment structure; a field of
type Option String models one probe, with none standing for a failed
command or an unreadable file, mirroring execute_command_stdout returning
Result<String> and fs reads returning io::Result.  All text processing is
implemented over List Char with structural recursion so that every
definition evaluates by kernel reduction.
-/

/-! ## Character and string helpers (models of the Rust str primitives) -/

/-- ASCII whitespace, the fragment of the regex class backslash-s and of
Rust char::is_whitespace that the probed text formats use. -/
def isWSChar (c : Char) : Bool :=
  c == ' ' || c == '\t' || c == '\n' || c == '\r' || c == '\x0b' || c == '\x0c'

/-- Substring test on character lists: some suffix of the haystack starts
with the pattern.  Models Rust str::contains with a string pattern. -/
def subList (pat : List Char) : List Char → Bool
  | [] => pat.isEmpty
  | c :: cs => pat.isPrefixOf (c :: cs) || subList pat cs

/-- Rust str::contains with a string pattern. -/
def strContains (hay pat : String) : Bool := subList pat.data hay.data

/-- Rust str::contains with a char pattern. -/
def strContainsChar (s : String) (c : Char) : Bool := s.data.contains c

/-- Rust str::starts_with. -/
def strStartsWith (s pre : String) : Bool := pre.data.isPrefixOf s.data

/-- Trim ASCII whitespace from both ends of a character list. -/
def trimChars (l : List Char) : List Char :=
  ((l.dropWhile isWSChar).reverse.dropWhile isWSChar).reverse

/-- Rust str::trim. -/
def strTrim (s : String) : String := String.mk (trimChars s.data)

/-- Split a character list at every occurrence of a separator, keeping
empty segments (the behaviour of Rust str::split with a char). -/
def splitOnChar (sep : Char) : List Char → List (List Char)
  | [] => [[]]
  | c :: cs =>
    if c == sep then [] :: splitOnChar sep cs
    else match splitOnChar sep cs with
      | h :: t => (c :: h) :: t
      | [] => [[c]]

/-- Rust str::split with a char separator. -/
def strSplitOnChar (sep : Char) (s : String) : List String :=
  (splitOnChar sep s.data).map String.mk

/-- Strip one trailing carriage return, as Rust str::lines does. -/
def stripCR (l : List Char) : List Char :=
  if l.getLast? == some '\r' then l.dropLast else l

/-- Rust str::lines: split on the newline character, do not produce a
final empty line for a trailing newline, strip one trailing CR per line. -/
def rustLines (s : String) : List String :=
  if s.data.isEmpty then []
  else
    let segs := splitOnChar '\n' s.data
    let segs := if s.data.getLast? == some '\n' then segs.dropLast else segs
    segs.map (fun l => String.mk (stripCR l))

/-- Helper of splitWhitespaceStr: the first argument is the remaining
input, the second the current word accumulated in reverse. -/
def wordsAux : List Char → List Char → List (List Char)
  | [], cur => if cur.isEmpty then [] else [cur.reverse]
  | c :: cs, cur =>
    if isWSChar c then
      if cur.isEmpty then wordsAux cs [] else cur.reverse :: wordsAux cs []
    else wordsAux cs (c :: cur)

/-- Rust str::split_whitespace: maximal runs of non-whitespace. -/
def splitWhitespaceStr (s : String) : List String :=
  (wordsAux s.data []).map String.mk

/-- Numeric value of a list of decimal digit characters. -/
def natOfDigits (l : List Char) : Nat :=
  l.foldl (fun a c => a * 10 + (c.toNat - 48)) 0

/-- Rust str::parse::<u32>: an optional plus sign, then one or more
decimal digits, value below 2^32. -/
def parseU32? (s : String) : Option Nat :=
  let l := match s.data with
    | '+' :: t => t
    | l => l
  if !l.isEmpty && l.all Char.isDigit then
    let v := natOfDigits l
    if v < 2 ^ 32 then some v else none
  else none

/-- Rust str::parse::<u8>: an optional plus sign, then one or more
decimal digits, value below 256. -/
def parseU8? (s : String) : Option Nat :=
  let l := match s.data with
    | '+' :: t => t
    | l => l
  if !l.isEmpty && l.all Char.isDigit then
    let v := natOfDigits l
    if v < 256 then some v else none
  else none

/-- Leftmost-match search of a regular-expression engine: try the matcher
at every start position from the left, first success wins. -/
def leftmostPos {α : Type} (p : List Char → Option α) : List Char → Option α
  | [] => p []
  | c :: cs => (p (c :: cs)).orElse fun _ => leftmostPos p cs

/-- Rightmost-match search: the behaviour of a greedy dot-star before a
sub-pattern, which makes the last matching position win. -/
def rightmostPos {α : Type} (p : List Char → Option α) : List Char → Option α
  | [] => p []
  | c :: cs => (rightmostPos p cs).orElse fun _ => p (c :: cs)

/-! ## Data model (src/model.rs) -/

/-- InterfaceKind from src/model.rs. -/
inductive InterfaceKind where
  | Physical | Loopback | Tun | Tap | WireGuard
  | Bridge | Veth | Vlan | Docker | Unknown
  deriving DecidableEq, Repr

/-- InterfaceState from src/model.rs. -/
inductive InterfaceState where
  | Up | Down | Unknown
  deriving DecidableEq, Repr

/-- ServiceStatus from src/model.rs. -/
inductive ServiceStatus where
  | Active | Inactive | Failed | Unknown
  deriving DecidableEq, Repr

/-- InterfaceOwner from src/model.rs. -/
inductive InterfaceOwner where
  | SystemdService (name : String) (status : ServiceStatus) (start_time : Option String)
  | DockerContainer (id : String) (name : String) (image : String)
  | Process (pid : Nat) (name : String) (cmdline : String)
  | NetworkManager (connection : String) (uuid : String)
  | Kernel (module : String)
  | Unknown
  deriving DecidableEq, Repr

/-- Ipv4Config from src/model.rs (the prefix-length field is named
prefixLen here). -/
structure Ipv4Config where
  address : String
  netmask : String
  prefixLen : Nat
  gateway : Option String
  deriving DecidableEq, Repr

/-- DnsConfig from src/model.rs. -/
structure DnsConfig where
  nameservers : List String
  deriving DecidableEq, Repr

/-- IpConfigMode from src/model.rs. -/
inductive IpConfigMode where
  | Static | Dhcp | NoneMode
  deriving DecidableEq, Repr

/-- NetInterface from src/model.rs.  The traffic_stats field (floating
point rates and a wall-clock instant, external per the spec) is omitted;
no modelled code reads or writes it. -/
structure NetInterface where
  name : String
  kind : InterfaceKind
  state : InterfaceState
  mac_address : Option String
  mtu : Nat
  ipv4_addresses : List String
  ipv6_addresses : List String
  owner : Option InterfaceOwner
  config_mode : IpConfigMode
  ipv4_config : Option Ipv4Config
  dns_config : Option DnsConfig
  deriving DecidableEq, Repr

/-- NetInterface::new from src/model.rs. -/
def NetInterface.new (name : String) (kind : InterfaceKind) : NetInterface where
  name := name
  kind := kind
  state := .Unknown
  mac_address := none
  mtu := 1500
  ipv4_addresses := []
  ipv6_addresses := []
  owner := none
  config_mode := .NoneMode
  ipv4_config := none
  dns_config := none

/-- RemovalStrategy from src/model.rs. -/
inductive RemovalStrategy where
  | InterfaceOnly | StopService | StopAndDisableService | StopContainer | KillProcess
  deriving DecidableEq, Repr

/-! ## Probe environment

One structure gathers every external observation the inventory builder,
the ownership resolver and the safety checks can make.  An Option String
field is the captured stdout of one command or the content of one file;
none models a failed invocation or an unreadable or absent file. -/

/-- The observable state of the operating system seen through the command
probe adapter and the sysfs and proc file reads of runtime.rs and
owner_detection.rs. -/
structure Sys where
  /-- stdout of: ip -o link show -/
  linkShow : Option String
  /-- stdout of: ip -o addr show dev name -/
  addrShowOneline : String → Option String
  /-- stdout of: ip addr show dev name (used by the SSH check) -/
  addrShowPlain : String → Option String
  /-- stdout of: ip route show default dev name -/
  routeDefaultDev : String → Option String
  /-- stdout of: ip route show default -/
  routeDefault : Option String
  /-- the SSH_CONNECTION environment variable -/
  sshConnection : Option String
  /-- content of /etc/resolv.conf -/
  resolvConf : Option String
  /-- content of /sys/class/net/name/uevent -/
  ueventFile : String → Option String
  /-- existence of /sys/class/net/name/bridge -/
  bridgeFileExists : String → Bool
  /-- content of /sys/class/net/name/tun_flags (isSome also models the
  existence test done by the process detector) -/
  tunFlagsFile : String → Option String
  /-- content of /sys/class/net/name/type -/
  typeFile : String → Option String
  /-- existence of /sys/class/net/name/device -/
  deviceExists : String → Bool
  /-- success of: docker --version -/
  dockerVersionOk : Bool
  /-- stdout of: docker ps with the id, names and image format -/
  dockerPs : Option String
  /-- stdout of: docker inspect -f state-pid id -/
  dockerInspectPid : String → Option String
  /-- stdout of: nsenter -t pid -n ip link show -/
  nsenterLinkAll : Nat → Option String
  /-- stdout of: nsenter -t pid -n ip link show name -/
  nsenterLinkIface : Nat → String → Option String
  /-- stdout of: systemctl status unit -/
  systemctlStatus : String → Option String
  /-- directory entry names of /proc -/
  procEntries : List String
  /-- targets of the symlinks under /proc/pid/fd, or none when the
  directory cannot be read -/
  procFdLinks : Nat → Option (List String)
  /-- content of /proc/pid/comm -/
  procComm : Nat → Option String
  /-- content of /proc/pid/cmdline -/
  procCmdline : Nat → Option String
  /-- success of: nmcli --version -/
  nmcliVersionOk : Bool
  /-- stdout of: nmcli device show name -/
  nmcliDeviceShow : String → Option String
  /-- stdout of: lsmod -/
  lsmodOut : Option String

/-- An inert environment in which every probe fails; used as the base of
concrete test environments. -/
def baseSys : Sys where
  linkShow := none
  addrShowOneline := fun _ => none
  addrShowPlain := fun _ => none
  routeDefaultDev := fun _ => none
  routeDefault := none
  sshConnection := none
  resolvConf := none
  ueventFile := fun _ => none
  bridgeFileExists := fun _ => false
  tunFlagsFile := fun _ => none
  typeFile := fun _ => none
  deviceExists := fun _ => false
  dockerVersionOk := false
  dockerPs := none
  dockerInspectPid := fun _ => none
  nsenterLinkAll := fun _ => none
  nsenterLinkIface := fun _ _ => none
  systemctlStatus := fun _ => none
  procEntries := []
  procFdLinks := fun _ => none
  procComm := fun _ => none
  procCmdline := fun _ => none
  nmcliVersionOk := false
  nmcliDeviceShow := fun _ => none
  lsmodOut := none

/-- Lift one probe result to the Result of execute_command_stdout in
src/utils/command.rs: a missing or failing command becomes an error. -/
def runCmd (o : Option String) : Except String String :=
  match o with
  | some s => .ok s
  | none => .error "命令执行失败"

/-- Rust Result::ok(): forget the error of an Except. -/
def exceptToOption {ε α : Type} : Except ε α → Option α
  | .ok a => some a
  | .error _ => none

/-! ## Regex models

Each function below implements exactly one regular expression of the
source, specialised to its pattern, with leftmost (or, where a greedy
dot-star precedes the pattern, rightmost) match semantics.  A dot matches
every character except the newline; a backslash-s class is isWSChar. -/

/-- Matcher at one position for: inet backslash-s+ ([0-9.]+/[0-9]+), the
regex of extract_ipv4_address in src/backend/runtime.rs. -/
def matchIpv4At (l : List Char) : Option String :=
  if "inet".data.isPrefixOf l then
    let r := l.drop 4
    let w := r.takeWhile isWSChar
    if w.isEmpty then none
    else
      let r2 := r.drop w.length
      let a := r2.takeWhile (fun c => c.isDigit || c == '.')
      if a.isEmpty then none
      else
        match r2.drop a.length with
        | '/' :: r3 =>
          let d := r3.takeWhile Char.isDigit
          if d.isEmpty then none else some (String.mk (a ++ '/' :: d))
        | _ => none
  else none

/-- extract_ipv4_address from src/backend/runtime.rs. -/
def extract_ipv4_address (line : String) : Option String :=
  leftmostPos matchIpv4At line.data

/-- Matcher at one position for: inet6 backslash-s+ ([0-9a-f:]+/[0-9]+),
the regex of extract_ipv6_address in src/backend/runtime.rs. -/
def matchIpv6At (l : List Char) : Option String :=
  if "inet6".data.isPrefixOf l then
    let r := l.drop 5
    let w := r.takeWhile isWSChar
    if w.isEmpty then none
    else
      let r2 := r.drop w.length
      let a := r2.takeWhile (fun c => c.isDigit || (('a' ≤ c) && (c ≤ 'f')) || c == ':')
      if a.isEmpty then none
      else
        match r2.drop a.length with
        | '/' :: r3 =>
          let d := r3.takeWhile Char.isDigit
          if d.isEmpty then none else some (String.mk (a ++ '/' :: d))
        | _ => none
  else none

/-- extract_ipv6_address from src/backend/runtime.rs. -/
def extract_ipv6_address (line : String) : Option String :=
  leftmostPos matchIpv6At line.data

/-- Matcher at one position for: link/ether backslash-s+ ([0-9a-f:]{17}),
the regex of extract_mac_address in src/backend/runtime.rs. -/
def matchMacAt (l : List Char) : Option String :=
  if "link/ether".data.isPrefixOf l then
    let r := l.drop 10
    let w := r.takeWhile isWSChar
    if w.isEmpty then none
    else
      let r2 := r.drop w.length
      let m := r2.take 17
      if m.length == 17 && m.all (fun c => c.isDigit || (('a' ≤ c) && (c ≤ 'f')) || c == ':') then
        some (String.mk m)
      else none
  else none

/-- extract_mac_address from src/backend/runtime.rs. -/
def extract_mac_address (line : String) : Option String :=
  leftmostPos matchMacAt line.data

/-- Matcher at one position for: default via ([0-9.]+), the regex of
get_default_gateway in src/backend/runtime.rs. -/
def matchDefaultViaAt (l : List Char) : Option String :=
  if "default via ".data.isPrefixOf l then
    let r := l.drop 12
    let a := r.takeWhile (fun c => c.isDigit || c == '.')
    if a.isEmpty then none else some (String.mk a)
  else none

/-- Matcher at one position for: dev backslash-s+ (backslash-S+), the
regex of get_default_route_interface in src/backend/runtime.rs. -/
def matchDevAt (l : List Char) : Option String :=
  if "dev".data.isPrefixOf l then
    let r := l.drop 3
    let w := r.takeWhile isWSChar
    if w.isEmpty then none
    else
      let a := (r.drop w.length).takeWhile (fun c => !isWSChar c)
      if a.isEmpty then none else some (String.mk a)
  else none

/-- Matcher at one position for: nameserver backslash-s+ ([0-9.]+), the
regex of get_dns_servers in src/backend/runtime.rs. -/
def matchNameserverAt (l : List Char) : Option String :=
  if "nameserver".data.isPrefixOf l then
    let r := l.drop 10
    let w := r.takeWhile isWSChar
    if w.isEmpty then none
    else
      let a := (r.drop w.length).takeWhile (fun c => c.isDigit || c == '.')
      if a.isEmpty then none else some (String.mk a)
  else none

/-- The tail pattern backslash-s+ (.+): a nonempty whitespace run, then a
greedy nonempty capture of non-newline characters.  When the capture
would be empty the engine backtracks one whitespace character into the
capture, provided the run keeps at least one character. -/
def matchWsCapture (r : List Char) : Option (List Char) :=
  let w := r.takeWhile isWSChar
  if w.isEmpty then none
  else
    let rest := r.drop w.length
    let cap := rest.takeWhile (fun c => c != '\n')
    if !cap.isEmpty then some cap
    else
      match w.getLast? with
      | some c => if w.length ≥ 2 && c != '\n' then some [c] else none
      | none => none

/-- Matcher at one position for a literal marker followed by
backslash-s+ (.+), the regexes of extract_nm_connection and
extract_nm_uuid in src/backend/owner_detection.rs. -/
def matchMarkerRestAt (marker : List Char) (l : List Char) : Option (List Char) :=
  if marker.isPrefixOf l then matchWsCapture (l.drop marker.length) else none

/-- The shared shape of extract_nm_connection and extract_nm_uuid: find
the marker, capture the rest of the line, trim it. -/
def extractMarkerRest (marker : String) (out : String) : Option String :=
  (leftmostPos (matchMarkerRestAt marker.data) out.data).map
    (fun c => String.mk (trimChars c))

/-- Matcher at one position for: since backslash-s+ (.+?);, the lazy
regex of extract_start_time in src/backend/owner_detection.rs.  The lazy
capture is the shortest nonempty non-newline run followed by a
semicolon; with an immediate semicolon the engine backtracks one
whitespace character into the capture. -/
def matchSinceAt (l : List Char) : Option (List Char) :=
  if "since".data.isPrefixOf l then
    let r := l.drop 5
    let w := r.takeWhile isWSChar
    if w.isEmpty then none
    else
      let rest := r.drop w.length
      let pre := rest.takeWhile (fun c => c != ';' && c != '\n')
      match rest.drop pre.length with
      | ';' :: _ =>
        if pre.isEmpty then
          match w.getLast? with
          | some c => if w.length ≥ 2 && c != '\n' then some [c] else none
          | none => none
        else some pre
      | _ => none
  else none

/-- extract_start_time from src/backend/owner_detection.rs. -/
def extract_start_time (output : String) : Option String :=
  (leftmostPos matchSinceAt output.data).map (fun c => String.mk (trimChars c))

/-- Matcher at one position for: mtu backslash-s+ ([0-9]+), the tail of
the link-line regex of parse_interface_from_link. -/
def matchMtuAt (l : List Char) : Option Nat :=
  if "mtu".data.isPrefixOf l then
    let r := l.drop 3
    let w := r.takeWhile isWSChar
    if w.isEmpty then none
    else
      let d := (r.drop w.length).takeWhile Char.isDigit
      if d.isEmpty then none else some (natOfDigits d)
  else none

/-! ## Interface inventory builder (src/backend/runtime.rs) -/

/-- prefix_to_netmask from src/backend/runtime.rs. The Rust expression
on a u32 is the bitwise not of zero shifted left by 32 - p, rendered as
a dotted quad; values above 32 are clamped first. -/
def prefix_to_netmask (p : Nat) : String :=
  if p > 32 then "255.255.255.255"
  else
    let mask : Nat := if p == 0 then 0 else ((2 ^ 32 - 1) <<< (32 - p)) % 2 ^ 32
    toString ((mask >>> 24) &&& 255) ++ "." ++
    toString ((mask >>> 16) &&& 255) ++ "." ++
    toString ((mask >>> 8) &&& 255) ++ "." ++
    toString (mask &&& 255)

/-- get_default_gateway from src/backend/runtime.rs. -/
def get_default_gateway (sys : Sys) (iface_name : String) : Except String String :=
  match runCmd (sys.routeDefaultDev iface_name) with
  | .error e => .error e
  | .ok out =>
    match leftmostPos matchDefaultViaAt out.data with
    | some gw => .ok gw
    | none => .error "未找到默认网关"

/-- get_dns_servers from src/backend/runtime.rs: read /etc/resolv.conf
if possible and collect the first nameserver capture of every line; a
missing file yields the empty list, never an error. -/
def get_dns_servers (sys : Sys) : Except String (List String) :=
  match sys.resolvConf with
  | some content =>
    .ok ((rustLines content).filterMap (fun line => leftmostPos matchNameserverAt line.data))
  | none => .ok []

/-- The tail of detect_interface_kind after the tun_flags test in
src/backend/runtime.rs: name-prefix fallback for tun and tap, then the
ethernet type file plus device link for Physical, else Unknown. -/
def detectKindTail (sys : Sys) (name : String) : InterfaceKind :=
  if strStartsWith name "tun" then .Tun
  else if strStartsWith name "tap" then .Tap
  else
    match sys.typeFile name with
    | some t =>
      if (parseU32? (strTrim t)).getD 0 == 1 && sys.deviceExists name then .Physical
      else .Unknown
    | none => .Unknown

/-- The tun_flags step of detect_interface_kind: a readable tun_flags
file with value 0x1 or 1 gives Tun, 0x2 or 2 gives Tap, anything else
falls through. -/
def detectKindTun (sys : Sys) (name : String) : InterfaceKind :=
  match sys.tunFlagsFile name with
  | some fl =>
    let f := strTrim fl
    if f == "0x1" || f == "1" then .Tun
    else if f == "0x2" || f == "2" then .Tap
    else detectKindTail sys name
  | none => detectKindTail sys name

/-- detect_interface_kind from src/backend/runtime.rs. -/
def detect_interface_kind (sys : Sys) (name : String) : InterfaceKind :=
  if name == "lo" then .Loopback
  else if name == "docker0" || strStartsWith name "br-" then .Docker
  else if strStartsWith name "wg" &&
      (match sys.ueventFile name with
       | some u => strContains u "wireguard"
       | none => false) then .WireGuard
  else if strStartsWith name "veth" then .Veth
  else if strContainsChar name '.' then .Vlan
  else if sys.bridgeFileExists name then .Bridge
  else detectKindTun sys name

/-- The ordered decision list of the kind classification, exactly as the
spec enumerates it: loopback name, docker-bridge names, wireguard name
plus uevent marker, veth name, vlan dot, bridge marker file, tun_flags
marker file, tun and tap name fallback, ethernet type with device link. -/
def kindRuleList : List (Sys → String → Option InterfaceKind) :=
  [ fun _ n => if n == "lo" then some .Loopback else none,
    fun _ n => if n == "docker0" || strStartsWith n "br-" then some .Docker else none,
    fun sys n =>
      if strStartsWith n "wg" &&
          (match sys.ueventFile n with
           | some u => strContains u "wireguard"
           | none => false) then some .WireGuard else none,
    fun _ n => if strStartsWith n "veth" then some .Veth else none,
    fun _ n => if strContainsChar n '.' then some .Vlan else none,
    fun sys n => if sys.bridgeFileExists n then some .Bridge else none,
    fun sys n =>
      match sys.tunFlagsFile n with
      | some fl =>
        let f := strTrim fl
        if f == "0x1" || f == "1" then some .Tun
        else if f == "0x2" || f == "2" then some .Tap
        else none
      | none => none,
    fun _ n =>
      if strStartsWith n "tun" then some .Tun
      else if strStartsWith n "tap" then some .Tap
      else none,
    fun sys n =>
      match sys.typeFile n with
      | some t =>
        if (parseU32? (strTrim t)).getD 0 == 1 && sys.deviceExists n then some .Physical
        else none
      | none => none ]

/-- First-match evaluation of an ordered decision list; no rule firing
gives Unknown. -/
def runKindRules : List (Sys → String → Option InterfaceKind) → Sys → String → InterfaceKind
  | [], _, _ => .Unknown
  | r :: rs, sys, n =>
    match r sys n with
    | some k => k
    | none => runKindRules rs sys n

/-- parse_interface_from_link from src/backend/runtime.rs: the anchored
regex over one link line, yielding none for a line that does not match
and an error only when the mtu capture overflows u32. -/
def parse_interface_from_link (sys : Sys) (line : String) : Except String (Option NetInterface) :=
  let l := line.data
  let ds := l.takeWhile Char.isDigit
  if ds.isEmpty then .ok none
  else
    match l.drop ds.length with
    | ':' :: r1 =>
      let w1 := r1.takeWhile isWSChar
      if w1.isEmpty then .ok none
      else
        let r2 := r1.drop w1.length
        match linkNameSplit r2 ((r2.takeWhile (fun c => c != ':' && c != '@')).length) with
        | none => .ok none
        | some (nameChars, r3) =>
          match r3 with
          | '<' :: r4 =>
            let flags := r4.takeWhile (fun c => c != '>')
            match r4.drop flags.length with
            | '>' :: r5 =>
              let w2 := r5.takeWhile isWSChar
              if w2.isEmpty then .ok none
              else
                match rightmostPos matchMtuAt (r5.drop w2.length) with
                | none => .ok none
                | some mtuVal =>
                  if mtuVal < 2 ^ 32 then
                    let name := String.mk (trimChars nameChars)
                    let kind := detect_interface_kind sys name
                    let base := NetInterface.new name kind
                    .ok (some { base with
                      state := if strContains (String.mk flags) "UP" then .Up else .Down
                      mtu := mtuVal
                      mac_address := extract_mac_address line })
                  else .error "mtu 解析失败"
            | _ => .ok none
          | _ => .ok none
    | _ => .ok none
where
  /-- Backtracking of the greedy name class [^:@]+ of the link regex:
  try the longest run first, shrinking until an optional single colon or
  at sign and a whitespace run lead to the opening angle bracket. -/
  linkNameSplit (r2 : List Char) : Nat → Option (List Char × List Char)
    | 0 => none
    | k + 1 =>
      let rest := r2.drop (k + 1)
      let rest2 := match rest with
        | c :: t => if c == ':' || c == '@' then t else rest
        | [] => []
      let rest3 := rest2.dropWhile isWSChar
      match rest3 with
      | '<' :: _ => some (r2.take (k + 1), rest3)
      | _ => linkNameSplit r2 k

/-! ## Ownership resolver (src/backend/owner_detection.rs) -/

namespace OwnerDetector

/-- container_has_veth from src/backend/owner_detection.rs: inspect the
container pid, enter its network namespace and accept when any eth0 or
eth1 name appears (the documented imprecise heuristic). -/
def container_has_veth (sys : Sys) (container_id : String) : Bool :=
  match sys.dockerInspectPid container_id with
  | some out =>
    match parseU32? (strTrim out) with
    | some pid =>
      match sys.nsenterLinkAll pid with
      | some o => strContains o "eth0" || strContains o "eth1"
      | none => false
    | none => false
  | none => false

/-- One line of the docker ps listing split at tabs; lines with fewer
than three fields are dropped. -/
def dockerPsLine (line : String) : Option (String × String × String) :=
  match strSplitOnChar '\t' line with
  | a :: b :: c :: _ => some (a, b, c)
  | _ => none

/-- check_docker_container from src/backend/owner_detection.rs. -/
def check_docker_container (sys : Sys) (iface_name : String) (kind : InterfaceKind) :
    Option InterfaceOwner :=
  if !(kind == .Docker || kind == .Veth) then none
  else if !sys.dockerVersionOk then none
  else if iface_name == "docker0" || strStartsWith iface_name "br-" then
    some (.DockerContainer "system" "Docker网桥" "docker-network")
  else
    match sys.dockerPs with
    | some out =>
      let containers := (rustLines out).filterMap dockerPsLine
      match containers with
      | [c] => some (.DockerContainer c.1 c.2.1 c.2.2)
      | cs =>
        (cs.find? (fun c => container_has_veth sys c.1)).map
          (fun c => .DockerContainer c.1 c.2.1 c.2.2)
    | none => none

/-- check_service from src/backend/owner_detection.rs: a unit matches
exactly when its status query succeeds; the textual state and the since
timestamp are extracted from the captured output. -/
def check_service (sys : Sys) (service_name : String) : Option InterfaceOwner :=
  match sys.systemctlStatus service_name with
  | some out =>
    let status :=
      if strContains out "Active: active" then ServiceStatus.Active
      else if strContains out "Active: inactive" then ServiceStatus.Inactive
      else if strContains out "Active: failed" then ServiceStatus.Failed
      else ServiceStatus.Unknown
    some (.SystemdService service_name status (extract_start_time out))
  | none => none

/-- check_systemd_service from src/backend/owner_detection.rs: for a
WireGuard interface the wg-quick unit is tried first, then the four
conventional unit-name templates in order. -/
def check_systemd_service (sys : Sys) (iface_name : String) (kind : InterfaceKind) :
    Option InterfaceOwner :=
  let service_patterns :=
    [ "wg-quick@" ++ iface_name ++ ".service",
      "openvpn@" ++ iface_name ++ ".service",
      "openvpn-client@" ++ iface_name ++ ".service",
      "netctl@" ++ iface_name ++ ".service" ]
  match (if kind == .WireGuard then
          check_service sys ("wg-quick@" ++ iface_name ++ ".service")
        else none) with
  | some o => some o
  | none => service_patterns.findSome? (check_service sys)

/-- process_owns_interface from src/backend/owner_detection.rs: a failed
namespace query degrades to trusting the candidate. -/
def process_owns_interface (sys : Sys) (pid : Nat) (iface_name : String) : Bool :=
  match sys.nsenterLinkIface pid iface_name with
  | some out => strContains out iface_name
  | none => true

/-- read_process_name from src/backend/owner_detection.rs. -/
def read_process_name (sys : Sys) (pid : Nat) : Option String :=
  (sys.procComm pid).map strTrim

/-- read_process_cmdline from src/backend/owner_detection.rs: NUL bytes
become spaces, then the ends are trimmed. -/
def read_process_cmdline (sys : Sys) (pid : Nat) : Option String :=
  (sys.procCmdline pid).map
    (fun s => strTrim (String.mk (s.data.map (fun c => if c == '\x00' then ' ' else c))))

/-- check_process_tun from src/backend/owner_detection.rs: an fd symlink
to the tun device node plus the namespace confirmation yields a Process
owner with best-effort name and command line. -/
def check_process_tun (sys : Sys) (pid : Nat) (iface_name : String) :
    Option InterfaceOwner :=
  match sys.procFdLinks pid with
  | some links =>
    if links.any (fun l => strContains l "/dev/net/tun") then
      if process_owns_interface sys pid iface_name then
        some (.Process pid
          ((read_process_name sys pid).getD ("pid-" ++ toString pid))
          ((read_process_cmdline sys pid).getD ""))
      else none
    else none
  | none => none

/-- check_process_fd from src/backend/owner_detection.rs: applies only
when the tun_flags marker exists; scans the numeric proc entries in
directory order. -/
def check_process_fd (sys : Sys) (iface_name : String) : Option InterfaceOwner :=
  if (sys.tunFlagsFile iface_name).isNone then none
  else
    sys.procEntries.findSome? (fun e =>
      match parseU32? e with
      | some pid => check_process_tun sys pid iface_name
      | none => none)

/-- check_network_manager from src/backend/owner_detection.rs. -/
def check_network_manager (sys : Sys) (iface_name : String) : Option InterfaceOwner :=
  if !sys.nmcliVersionOk then none
  else
    match sys.nmcliDeviceShow iface_name with
    | some out =>
      if strContains out "GENERAL.CONNECTION" then
        match extractMarkerRest "GENERAL.CONNECTION:" out,
              extractMarkerRest "GENERAL.CON-UUID:" out with
        | some conn, some uuid => some (.NetworkManager conn uuid)
        | _, _ => none
      else none
    | none => none

/-- check_kernel_module from src/backend/owner_detection.rs. -/
def check_kernel_module (sys : Sys) (_iface_name : String) (kind : InterfaceKind) :
    Option InterfaceOwner :=
  let module? : Option String :=
    match kind with
    | .Bridge => some "bridge"
    | .Vlan => some "8021q"
    | .WireGuard => some "wireguard"
    | _ => none
  match module? with
  | some m =>
    match sys.lsmodOut with
    | some out => if strContains out m then some (.Kernel m) else none
    | none => none
  | none => none

/-- OwnerDetector::detect from src/backend/owner_detection.rs: the
or_else chain over the five detectors, starting from None. -/
def detect (sys : Sys) (iface : NetInterface) : Option InterfaceOwner :=
  (((((none : Option InterfaceOwner).orElse
    (fun _ => check_docker_container sys iface.name iface.kind)).orElse
    (fun _ => check_systemd_service sys iface.name iface.kind)).orElse
    (fun _ => check_process_fd sys iface.name)).orElse
    (fun _ => check_network_manager sys iface.name)).orElse
    (fun _ => check_kernel_module sys iface.name iface.kind)

end OwnerDetector

/-- The five detectors as an explicit ordered list, in the priority
order the spec names: container, service manager, process file
descriptor, connection manager, kernel module. -/
def detectorList : List (Sys → NetInterface → Option InterfaceOwner) :=
  [ fun sys i => OwnerDetector.check_docker_container sys i.name i.kind,
    fun sys i => OwnerDetector.check_systemd_service sys i.name i.kind,
    fun sys i => OwnerDetector.check_process_fd sys i.name,
    fun sys i => OwnerDetector.check_network_manager sys i.name,
    fun sys i => OwnerDetector.check_kernel_module sys i.name i.kind ]

/-- Short-circuit evaluation of an ordered detector chain: the first
non-empty result wins. -/
def runDetectors : List (Sys → NetInterface → Option InterfaceOwner) →
    Sys → NetInterface → Option InterfaceOwner
  | [], _, _ => none
  | d :: ds, sys, i =>
    match d sys i with
    | some o => some o
    | none => runDetectors ds sys i

/-! ## Address enrichment and the refresh (src/backend/runtime.rs) -/

/-- Rust str::split_once with a char separator: split at the first
occurrence, none when the separator does not occur. -/
def splitOnceChar (sep : Char) (s : String) : Option (String × String) :=
  let a := s.data.takeWhile (fun c => c != sep)
  match s.data.drop a.length with
  | _ :: t => some (String.mk a, String.mk t)
  | [] => none

/-- One iteration of the line loop of add_ip_addresses in
src/backend/runtime.rs: an inet line appends to the IPv4 list and, when
its prefix parses as u8, overwrites the structured IPv4 configuration;
an inet6 line appends to the IPv6 list. -/
def addrLineStep (sys : Sys) (name : String) (iface : NetInterface) (line : String) :
    NetInterface :=
  if strContains line "inet " then
    match extract_ipv4_address line with
    | some addr =>
      let iface := { iface with ipv4_addresses := iface.ipv4_addresses ++ [addr] }
      match splitOnceChar '/' addr with
      | some (ip, prefixStr) =>
        match parseU8? prefixStr with
        | some p =>
          let cfg := Ipv4Config.mk ip (prefix_to_netmask p) p
            (exceptToOption (get_default_gateway sys name))
          { iface with ipv4_config := some cfg }
        | none => iface
      | none => iface
    | none => iface
  else if strContains line "inet6 " then
    match extract_ipv6_address line with
    | some addr => { iface with ipv6_addresses := iface.ipv6_addresses ++ [addr] }
    | none => iface
  else iface

/-- The structured IPv4 configuration one address line contributes, if
any: the claim-side companion of addrLineStep used to state which line
the final configuration comes from. -/
def ipv4ConfigOfLine (sys : Sys) (name : String) (line : String) : Option Ipv4Config :=
  if strContains line "inet " then
    match extract_ipv4_address line with
    | some addr =>
      match splitOnceChar '/' addr with
      | some (ip, prefixStr) =>
        match parseU8? prefixStr with
        | some p =>
          some
            { address := ip
              netmask := prefix_to_netmask p
              prefixLen := p
              gateway := exceptToOption (get_default_gateway sys name) }
        | none => none
      | none => none
    | none => none
  else none

/-- The DNS enrichment at the end of add_ip_addresses: a nonempty
system-wide resolver list populates dns_config, failures and empty
lists leave it unchanged. -/
def applyDns (sys : Sys) (iface : NetInterface) : NetInterface :=
  match get_dns_servers sys with
  | .ok dns => if dns.isEmpty then iface else { iface with dns_config := some ⟨dns⟩ }
  | .error _ => iface

/-- add_ip_addresses from src/backend/runtime.rs: a failing address
probe is an error for the whole call; otherwise every output line is
folded over the interface and the DNS configuration is applied. -/
def add_ip_addresses (sys : Sys) (iface : NetInterface) : Except String NetInterface :=
  match sys.addrShowOneline iface.name with
  | none => .error "命令执行失败"
  | some out =>
    .ok (applyDns sys ((rustLines out).foldl (addrLineStep sys iface.name) iface))

/-- List version of the question-mark operator over a loop body: map an
Except-returning function, stopping at the first error. -/
def exceptMapM {ε α β : Type} (f : α → Except ε β) : List α → Except ε (List β)
  | [] => .ok []
  | a :: as_ =>
    match f a with
    | .error e => .error e
    | .ok b =>
      match exceptMapM f as_ with
      | .error e => .error e
      | .ok bs => .ok (b :: bs)

/-- The first loop of list_interfaces: parse every link line, keep the
parsed interfaces in order, propagate a parse error. -/
def parseLinks (sys : Sys) : List String → Except String (List NetInterface)
  | [] => .ok []
  | l :: ls =>
    match parse_interface_from_link sys l with
    | .error e => .error e
    | .ok h =>
      match parseLinks sys ls with
      | .error e => .error e
      | .ok t => .ok (match h with | some i => i :: t | none => t)

/-- list_interfaces from src/backend/runtime.rs: the link probe and the
per-interface address probes propagate failure; owner detection never
fails. -/
def list_interfaces (sys : Sys) : Except String (List NetInterface) :=
  match runCmd sys.linkShow with
  | .error e => .error e
  | .ok out =>
    match parseLinks sys (rustLines out) with
    | .error e => .error e
    | .ok ifaces =>
      match exceptMapM (add_ip_addresses sys) ifaces with
      | .error e => .error e
      | .ok ifaces2 =>
        .ok (ifaces2.map (fun i => { i with owner := OwnerDetector.detect sys i }))

/-- get_default_route_interface from src/backend/runtime.rs. -/
def get_default_route_interface (sys : Sys) : Except String (Option String) :=
  match runCmd sys.routeDefault with
  | .error e => .error e
  | .ok out =>
    match leftmostPos matchDevAt out.data with
    | some d => .ok (some d)
    | none => .ok none

/-- is_ssh_interface from src/backend/runtime.rs: with a usable
SSH_CONNECTION value and a successful address probe the answer is the
substring test on the local endpoint; otherwise the check degrades to
comparing against the default-route interface. -/
def is_ssh_interface (sys : Sys) (iface_name : String) : Bool :=
  let viaSsh : Option Bool :=
    match sys.sshConnection with
    | some conn =>
      match (splitWhitespaceStr conn)[2]?, sys.addrShowPlain iface_name with
      | some localIp, some out => some (strContains out localIp)
      | _, _ => none
    | none => none
  match viaSsh with
  | some b => b
  | none =>
    match get_default_route_interface sys with
    | .ok (some d) => d == iface_name
    | _ => false

/-- delete_interface from src/backend/runtime.rs: the result of the ip
link delete command with the deletion context message. -/
def delete_interface (sys' : String → Option String) (iface_name : String) :
    Except String Unit :=
  match sys' iface_name with
  | some _ => .ok ()
  | none => .error ("删除接口 " ++ iface_name ++ " 失败")

/-! ## Removal strategy engine (src/backend/removal.rs)

The teardown helpers perform commands in sequence; the model returns the
list of attempted actions together with the Result value, so that the
order of attempts and the propagation of failures are both visible. -/

/-- One attempted action of a removal plan. -/
inductive Event where
  /-- systemctl stop unit -/
  | execStop (unit : String)
  /-- systemctl disable unit -/
  | execDisable (unit : String)
  /-- docker stop id -/
  | dockerStop (id : String)
  /-- kill pid (the graceful termination signal) -/
  | sigTerm (pid : Nat)
  /-- thread::sleep of the given number of seconds -/
  | sleepSec (n : Nat)
  /-- kill -9 pid (the forceful termination signal) -/
  | sigKill (pid : Nat)
  /-- ip link delete name -/
  | deleteIface (name : String)
  deriving DecidableEq, Repr

/-- The observable outcomes of the commands a removal plan can run. -/
structure RemSys where
  /-- stdout of: systemctl stop unit, none on failure -/
  systemctlStop : String → Option String
  /-- stdout of: systemctl disable unit, none on failure -/
  systemctlDisable : String → Option String
  /-- success of: docker stop id -/
  dockerStopOk : String → Bool
  /-- success of: kill pid -/
  killOk : Nat → Bool
  /-- success of: kill -9 pid -/
  kill9Ok : Nat → Bool
  /-- existence of /proc/pid after the grace period -/
  procAlive : Nat → Bool
  /-- stdout of: ip link delete name, none on failure -/
  ipLinkDelete : String → Option String

/-- An inert removal environment in which every command fails; used as
the base of concrete test environments. -/
def baseRemSys : RemSys where
  systemctlStop := fun _ => none
  systemctlDisable := fun _ => none
  dockerStopOk := fun _ => false
  killOk := fun _ => false
  kill9Ok := fun _ => false
  procAlive := fun _ => false
  ipLinkDelete := fun _ => none

namespace RemovalManager

/-- RemovalManager::determine_strategy from src/backend/removal.rs. -/
def determine_strategy (iface : NetInterface) : RemovalStrategy :=
  match iface.owner with
  | some (.SystemdService _ _ _) => .StopAndDisableService
  | some (.DockerContainer _ _ _) => .StopContainer
  | some (.Process _ _ _) => .KillProcess
  | some (.NetworkManager _ _) => .StopService
  | _ => .InterfaceOnly

/-- RemovalManager::remove_interface_only from src/backend/removal.rs:
delete_interface with a per-interface failure context. -/
def remove_interface_only (rs : RemSys) (iface_name : String) :
    List Event × Except String Unit :=
  ([Event.deleteIface iface_name],
    match rs.ipLinkDelete iface_name with
    | some _ => .ok ()
    | none => .error ("删除接口 " ++ iface_name ++ " 失败"))

/-- RemovalManager::stop_service from src/backend/removal.rs: a failing
systemctl stop is propagated with the question-mark operator. -/
def stop_service (rs : RemSys) (iface : NetInterface) : List Event × Except String Unit :=
  match iface.owner with
  | some (.SystemdService name _ _) =>
    ([Event.execStop name],
      match rs.systemctlStop name with
      | some _ => .ok ()
      | none => .error ("停止服务 " ++ name ++ " 失败"))
  | _ => ([], .ok ())

/-- RemovalManager::stop_and_disable_service from src/backend/removal.rs:
stop, then disable, each failure propagated immediately. -/
def stop_and_disable_service (rs : RemSys) (iface : NetInterface) :
    List Event × Except String Unit :=
  match iface.owner with
  | some (.SystemdService name _ _) =>
    match rs.systemctlStop name with
    | none => ([Event.execStop name], .error ("停止服务 " ++ name ++ " 失败"))
    | some _ =>
      match rs.systemctlDisable name with
      | none => ([Event.execStop name, Event.execDisable name],
          .error ("禁用服务 " ++ name ++ " 失败"))
      | some _ => ([Event.execStop name, Event.execDisable name], .ok ())
  | _ => ([], .ok ())

/-- RemovalManager::stop_container from src/backend/removal.rs: the
synthetic system bridge owner is skipped; a real container stop is
attempted and its failure only printed, never returned. -/
def stop_container (_rs : RemSys) (iface : NetInterface) : List Event × Except String Unit :=
  match iface.owner with
  | some (.DockerContainer id _ _) =>
    if id == "system" then ([], .ok ())
    else ([Event.dockerStop id], .ok ())
  | _ => ([], .ok ())

/-- RemovalManager::kill_process from src/backend/removal.rs: when the
graceful kill command succeeds the plan sleeps one second and, if the
process still exists, attempts the forceful kill; when the graceful kill
command fails only a warning is printed; the Result is always Ok. -/
def kill_process (rs : RemSys) (iface : NetInterface) : List Event × Except String Unit :=
  match iface.owner with
  | some (.Process pid _ _) =>
    if rs.killOk pid then
      ([Event.sigTerm pid, Event.sleepSec 1] ++
        (if rs.procAlive pid then [Event.sigKill pid] else []), .ok ())
    else ([Event.sigTerm pid], .ok ())
  | _ => ([], .ok ())

/-- Sequencing of a preparatory step and the final deletion under the
question-mark operator: a failing step aborts before deletion. -/
def andThenDelete (step : List Event × Except String Unit) (rs : RemSys)
    (iface_name : String) : List Event × Except String Unit :=
  match step with
  | (tr, .error e) => (tr, .error e)
  | (tr, .ok _) =>
    let d := remove_interface_only rs iface_name
    (tr ++ d.1, d.2)

/-- RemovalManager::remove_interface from src/backend/removal.rs. -/
def remove_interface (rs : RemSys) (iface : NetInterface) (strategy : RemovalStrategy) :
    List Event × Except String Unit :=
  match strategy with
  | .InterfaceOnly => remove_interface_only rs iface.name
  | .StopService => andThenDelete (stop_service rs iface) rs iface.name
  | .StopAndDisableService => andThenDelete (stop_and_disable_service rs iface) rs iface.name
  | .StopContainer => andThenDelete (stop_container rs iface) rs iface.name
  | .KillProcess => andThenDelete (kill_process rs iface) rs iface.name

/-- The SSH warning text of check_safety. -/
def sshWarnStr (n : String) : String :=
  "⚠️ 警告: " ++ n ++ " 是SSH连接使用的接口，删除后可能导致远程连接断开！"

/-- The default-route warning text of check_safety. -/
def dfltWarnStr (n : String) : String :=
  "⚠️ 警告: " ++ n ++ " 是默认路由接口，删除后可能无法访问外网！"

/-- The configured-address warning text of check_safety. -/
def addrWarnStr (n : String) : String :=
  "⚠️ 提示: " ++ n ++ " 配置了IP地址，可能有活跃的网络连接"

/-- RemovalManager::check_safety from src/backend/removal.rs: three
independent pushes onto the warning list, never an error. -/
def check_safety (sys : Sys) (iface : NetInterface) : List String :=
  (if is_ssh_interface sys iface.name then [sshWarnStr iface.name] else []) ++
  (if (match get_default_route_interface sys with
       | .ok (some d) => d == iface.name
       | _ => false) then [dfltWarnStr iface.name] else []) ++
  (if !iface.ipv4_addresses.isEmpty || !iface.ipv6_addresses.isEmpty then
    [addrWarnStr iface.name] else [])

end RemovalManager

/-! ## Claim C9: netmask derivation -/

/-- The 32-bit word whose p most significant bits are set: bit i is set
exactly when i is at least 32 - p.  This is the mask the spec describes,
written directly from its words. -/
def msbMask (p : Nat) : Nat :=
  (List.range 32).foldl (fun a i => if 32 - p ≤ i then a + 2 ^ i else a) 0

/-- Dotted-quad rendering of a 32-bit word, most significant octet
first. -/
def dottedQuad (mask : Nat) : String :=
  toString ((mask >>> 24) &&& 255) ++ "." ++
  toString ((mask >>> 16) &&& 255) ++ "." ++
  toString ((mask >>> 8) &&& 255) ++ "." ++
  toString (mask &&& 255)

/-- All in-range prefixes at once, settled by evaluation. -/
theorem netmask_ball : ∀ p < 33, prefix_to_netmask p = dottedQuad (msbMask p) := by
  decide

/-- C9: prefix_to_netmask maps every prefix length p up to 32 to the
dotted-quad rendering of the 32-bit mask with the p most significant
bits set, and clamps every larger p to the all-ones mask. -/
theorem c9_netmask_derivation (p : Nat) :
    (p ≤ 32 → prefix_to_netmask p = dottedQuad (msbMask p)) ∧
    (32 < p → prefix_to_netmask p = "255.255.255.255") := by
  constructor
  · intro h
    exact netmask_ball p (Nat.lt_succ_of_le h)
  · intro h
    simp only [prefix_to_netmask, if_pos h]

/-- C9 witness: the four prefix lengths the spec names, at concrete
inputs through the theorem. -/
theorem c9_netmask_derivation_witness :
    prefix_to_netmask 24 = dottedQuad (msbMask 24) ∧
    prefix_to_netmask 0 = dottedQuad (msbMask 0) ∧
    prefix_to_netmask 32 = dottedQuad (msbMask 32) ∧
    prefix_to_netmask 33 = "255.255.255.255" ∧
    dottedQuad (msbMask 24) = "255.255.255.0" ∧
    dottedQuad (msbMask 0) = "0.0.0.0" ∧
    dottedQuad (msbMask 32) = "255.255.255.255" :=
  ⟨(c9_netmask_derivation 24).1 (by decide),
   (c9_netmask_derivation 0).1 (by decide),
   (c9_netmask_derivation 32).1 (by decide),
   (c9_netmask_derivation 33).2 (by decide),
   by decide, by decide, by decide⟩

/-! ## Claim C4: kind classification as an ordered decision list -/

/-- The classifier equals first-match evaluation of the ordered rule
list; proved by exhausting the decision conditions in order. -/
theorem detect_kind_eq_rules : ∀ (sys : Sys) (name : String),
    detect_interface_kind sys name = runKindRules kindRuleList sys name := by
  intro sys name
  simp only [kindRuleList, runKindRules]
  unfold detect_interface_kind detectKindTun detectKindTail
  by_cases h1 : (name == "lo") = true
  · simp [h1]
  · simp only [Bool.not_eq_true] at h1
    simp only [h1]
    by_cases h2 : (name == "docker0" || strStartsWith name "br-") = true
    · simp [h2]
    · simp only [Bool.not_eq_true] at h2
      simp only [h2]
      by_cases h3 : (strStartsWith name "wg" &&
          (match sys.ueventFile name with
           | some u => strContains u "wireguard"
           | none => false)) = true
      · simp [h3]
      · simp only [Bool.not_eq_true] at h3
        simp only [h3]
        by_cases h4 : (strStartsWith name "veth") = true
        · simp [h4]
        · simp only [Bool.not_eq_true] at h4
          simp only [h4]
          by_cases h5 : (strContainsChar name '.') = true
          · simp [h5]
          · simp only [Bool.not_eq_true] at h5
            simp only [h5]
            by_cases h6 : sys.bridgeFileExists name = true
            · simp [h6]
            · simp only [Bool.not_eq_true] at h6
              simp only [h6]
              cases hf : sys.tunFlagsFile name with
              | some fl =>
                by_cases h7 : (strTrim fl == "0x1" || strTrim fl == "1") = true
                · simp [h7]
                · simp only [Bool.not_eq_true] at h7
                  simp only [h7]
                  by_cases h8 : (strTrim fl == "0x2" || strTrim fl == "2") = true
                  · simp [h8]
                  · simp only [Bool.not_eq_true] at h8
                    simp only [h8]
                    by_cases h9 : (strStartsWith name "tun") = true
                    · simp [h9]
                    · simp only [Bool.not_eq_true] at h9
                      simp only [h9]
                      by_cases h10 : (strStartsWith name "tap") = true
                      · simp [h10]
                      · simp only [Bool.not_eq_true] at h10
                        simp only [h10]
                        cases ht : sys.typeFile name with
                        | some t =>
                          by_cases h11 : ((parseU32? (strTrim t)).getD 0 == 1 &&
                              sys.deviceExists name) = true
                          · simp [h11]
                          · simp only [Bool.not_eq_true] at h11
                            simp [h11]
                        | none => simp
              | none =>
                by_cases h9 : (strStartsWith name "tun") = true
                · simp [h9]
                · simp only [Bool.not_eq_true] at h9
                  simp only [h9]
                  by_cases h10 : (strStartsWith name "tap") = true
                  · simp [h10]
                  · simp only [Bool.not_eq_true] at h10
                    simp only [h10]
                    cases ht : sys.typeFile name with
                    | some t =>
                      by_cases h11 : ((parseU32? (strTrim t)).getD 0 == 1 &&
                          sys.deviceExists name) = true
                      · simp [h11]
                      · simp only [Bool.not_eq_true] at h11
                        simp [h11]
                    | none => simp

/-- C4: kind classification is the deterministic first-match evaluation
of the ordered rule list loopback, docker bridge, wireguard, veth, vlan
dot, bridge marker, tun_flags marker, tun and tap name fallback,
physical, unknown; and every name matching the docker-bridge rule
classifies as Docker in every environment, so a name matching both the
docker rule and the vlan dot rule yields Docker, never Vlan. -/
theorem c4_kind_order (sys : Sys) (name : String) :
    detect_interface_kind sys name = runKindRules kindRuleList sys name ∧
    ((name == "docker0" || strStartsWith name "br-") = true →
      detect_interface_kind sys name = .Docker) := by
  refine ⟨detect_kind_eq_rules sys name, fun h => ?_⟩
  unfold detect_interface_kind
  by_cases h1 : (name == "lo") = true
  · exfalso
    have : name = "lo" := eq_of_beq h1
    subst this
    exact absurd h (by decide)
  · simp only [Bool.not_eq_true] at h1
    simp [h1, h]

/-- C4 witness: the name br-0.1 matches both the docker-bridge rule and
the vlan dot rule, and classifies as Docker, not Vlan, in the inert
environment through the theorem. -/
theorem c4_kind_order_witness :
    ("br-0.1" == "docker0" || strStartsWith "br-0.1" "br-") = true ∧
    strContainsChar "br-0.1" '.' = true ∧
    detect_interface_kind baseSys "br-0.1" = .Docker ∧
    InterfaceKind.Docker ≠ InterfaceKind.Vlan :=
  ⟨by decide, by decide, (c4_kind_order baseSys "br-0.1").2 (by decide), by decide⟩

/-! ## Claim C5: ownership resolution order and short-circuit -/

/-- The or_else chain of OwnerDetector::detect equals short-circuit
evaluation of the explicit five-detector priority list. -/
theorem detect_eq_detectors : ∀ (sys : Sys) (iface : NetInterface),
    OwnerDetector.detect sys iface = runDetectors detectorList sys iface := by
  intro sys iface
  simp only [detectorList, runDetectors, OwnerDetector.detect]
  cases h1 : OwnerDetector.check_docker_container sys iface.name iface.kind with
  | some o => simp [Option.orElse, h1]
  | none =>
    cases h2 : OwnerDetector.check_systemd_service sys iface.name iface.kind with
    | some o => simp [Option.orElse, h1, h2]
    | none =>
      cases h3 : OwnerDetector.check_process_fd sys iface.name with
      | some o => simp [Option.orElse, h1, h2, h3]
      | none =>
        cases h4 : OwnerDetector.check_network_manager sys iface.name with
        | some o => simp [Option.orElse, h1, h2, h3, h4]
        | none =>
          cases h5 : OwnerDetector.check_kernel_module sys iface.name iface.kind with
          | some o => simp [Option.orElse, h1, h2, h3, h4, h5]
          | none => simp [Option.orElse, h1, h2, h3, h4, h5]

/-- C5: ownership resolution is the short-circuit evaluation of the five
detectors in the fixed order container, service manager, process file
descriptor, connection manager, kernel module; whenever the container
detector yields a result, the resolved owner is exactly that result, so
it beats the kernel-module detector in particular. -/
theorem c5_owner_priority (sys : Sys) (iface : NetInterface) :
    OwnerDetector.detect sys iface = runDetectors detectorList sys iface ∧
    ((OwnerDetector.check_docker_container sys iface.name iface.kind).isSome →
      OwnerDetector.detect sys iface =
        OwnerDetector.check_docker_container sys iface.name iface.kind) := by
  refine ⟨detect_eq_detectors sys iface, fun h => ?_⟩
  simp only [OwnerDetector.detect]
  cases h1 : OwnerDetector.check_docker_container sys iface.name iface.kind with
  | some o => simp [Option.orElse, h1]
  | none => rw [h1] at h; exact absurd h (by decide)

/-- C5 witness: an environment in which the docker probe answers for the
system bridge; the resolved owner is the container detector result,
through the theorem. -/
theorem c5_owner_priority_witness :
    (OwnerDetector.check_docker_container
      { baseSys with dockerVersionOk := true } "docker0" .Docker).isSome = true ∧
    OwnerDetector.detect { baseSys with dockerVersionOk := true }
        (NetInterface.new "docker0" .Docker) =
      OwnerDetector.check_docker_container
        { baseSys with dockerVersionOk := true } "docker0" .Docker :=
  ⟨by decide,
   (c5_owner_priority { baseSys with dockerVersionOk := true }
     (NetInterface.new "docker0" .Docker)).2 (by decide)⟩

/-! ## Claim C6: the service-manager detector -/

/-- The status report of the wg0 scenario. -/
def wg0StatusOut : String :=
  "● wg-quick@wg0.service - WireGuard via wg-quick(8) for wg0\n" ++
  "     Loaded: loaded (/lib/systemd/system/wg-quick@.service; enabled)\n" ++
  "     Active: active since Mon 2024-01-01 10:00:00 UTC; 2h 30min ago\n"

/-- The environment of the wg0 scenario: only the wg-quick unit status
query answers, with an active-since status report. -/
def sysWg0 : Sys :=
  { baseSys with systemctlStatus := fun u =>
      if u == "wg-quick@wg0.service" then some wg0StatusOut else none }

/-- C6: a unit matches exactly when its status query succeeds at all,
whatever state the report shows; and in the wg0 scenario the resolved
owner is the wg-quick service, Active, with the since timestamp
extracted from the report, and the derived strategy stops and disables
the service. -/
theorem c6_service_detector :
    (∀ (sys : Sys) (u : String),
      (OwnerDetector.check_service sys u).isSome = (sys.systemctlStatus u).isSome) ∧
    OwnerDetector.detect sysWg0 (NetInterface.new "wg0" .WireGuard) =
      some (.SystemdService "wg-quick@wg0.service" .Active
        (some "Mon 2024-01-01 10:00:00 UTC")) ∧
    RemovalManager.determine_strategy
      { NetInterface.new "wg0" .WireGuard with
        owner := some (.SystemdService "wg-quick@wg0.service" .Active
          (some "Mon 2024-01-01 10:00:00 UTC")) } = .StopAndDisableService := by
  refine ⟨fun sys u => ?_, by decide, by decide⟩
  unfold OwnerDetector.check_service
  cases h : sys.systemctlStatus u <;> simp [h]

/-! ## Claim C7: safety check independence -/

/-- Concatenation of strings concatenates their character data. -/
theorem strData_append (a b : String) : (a ++ b).data = a.data ++ b.data := by
  cases a; cases b; rfl

/-- Two warning templates around the same interface name differ whenever
their fixed parts have different total lengths. -/
theorem warnNe (p1 s1 p2 s2 : String)
    (h : p1.data.length + s1.data.length ≠ p2.data.length + s2.data.length) :
    ∀ n : String, p1 ++ n ++ s1 ≠ p2 ++ n ++ s2 := by
  intro n heq
  apply h
  have hl := congrArg (fun s : String => s.data.length) heq
  simp only [strData_append, List.length_append] at hl
  omega

/-- The SSH warning and the default-route warning are distinct texts for
every interface name. -/
theorem ssh_ne_dflt (n : String) :
    RemovalManager.sshWarnStr n ≠ RemovalManager.dfltWarnStr n :=
  warnNe _ _ _ _ (by decide) n

/-- The SSH warning and the address warning are distinct texts for every
interface name. -/
theorem ssh_ne_addr (n : String) :
    RemovalManager.sshWarnStr n ≠ RemovalManager.addrWarnStr n :=
  warnNe _ _ _ _ (by decide) n

/-- The default-route warning and the address warning are distinct texts
for every interface name. -/
theorem dflt_ne_addr (n : String) :
    RemovalManager.dfltWarnStr n ≠ RemovalManager.addrWarnStr n :=
  warnNe _ _ _ _ (by decide) n

/-- Membership in a three-block conditional list. -/
theorem mem_ite_triple (w1 w2 w3 x : String) (b1 b2 b3 : Bool) :
    (x ∈ (if b1 then [w1] else []) ++ (if b2 then [w2] else []) ++
      (if b3 then [w3] else [])) ↔
    ((b1 = true ∧ x = w1) ∨ (b2 = true ∧ x = w2) ∨ (b3 = true ∧ x = w3)) := by
  cases b1 <;> cases b2 <;> cases b3 <;> simp [List.mem_append]

/-- The default-route condition of check_safety holds exactly when the
route probe succeeds and names this interface. -/
theorem routeHit_iff (sys : Sys) (name : String) :
    (match get_default_route_interface sys with
     | .ok (some d) => d == name
     | _ => false) = true ↔ get_default_route_interface sys = .ok (some name) := by
  cases hr : get_default_route_interface sys with
  | ok o => cases o <;> simp [beq_iff_eq]
  | error e => simp

/-- The address condition of check_safety holds exactly when one of the
address lists is nonempty. -/
theorem addrs_iff (i : NetInterface) :
    (!i.ipv4_addresses.isEmpty || !i.ipv6_addresses.isEmpty) = true ↔
    (i.ipv4_addresses ≠ [] ∨ i.ipv6_addresses ≠ []) := by
  simp [List.isEmpty_iff]

/-- C7: check_safety performs three independent checks and never fails;
each warning appears exactly when its own condition holds, so all
applicable warnings are surfaced together, and an interface that is both
the default-route interface and carries IPv4 addresses receives the
default-route warning and the address warning as two distinct list
entries. -/
theorem c7_check_safety (sys : Sys) (iface : NetInterface) :
    (RemovalManager.sshWarnStr iface.name ∈ RemovalManager.check_safety sys iface ↔
      is_ssh_interface sys iface.name = true) ∧
    (RemovalManager.dfltWarnStr iface.name ∈ RemovalManager.check_safety sys iface ↔
      get_default_route_interface sys = .ok (some iface.name)) ∧
    (RemovalManager.addrWarnStr iface.name ∈ RemovalManager.check_safety sys iface ↔
      (iface.ipv4_addresses ≠ [] ∨ iface.ipv6_addresses ≠ [])) ∧
    (get_default_route_interface sys = .ok (some iface.name) →
      iface.ipv4_addresses ≠ [] →
      RemovalManager.dfltWarnStr iface.name ∈ RemovalManager.check_safety sys iface ∧
      RemovalManager.addrWarnStr iface.name ∈ RemovalManager.check_safety sys iface ∧
      RemovalManager.dfltWarnStr iface.name ≠ RemovalManager.addrWarnStr iface.name) := by
  have hm := fun x => mem_ite_triple (RemovalManager.sshWarnStr iface.name)
    (RemovalManager.dfltWarnStr iface.name) (RemovalManager.addrWarnStr iface.name) x
    (is_ssh_interface sys iface.name)
    (match get_default_route_interface sys with
     | .ok (some d) => d == iface.name
     | _ => false)
    (!iface.ipv4_addresses.isEmpty || !iface.ipv6_addresses.isEmpty)
  refine ⟨?_, ?_, ?_, ?_⟩
  · rw [RemovalManager.check_safety, hm]
    constructor
    · rintro (⟨hb, _⟩ | ⟨_, hx⟩ | ⟨_, hx⟩)
      · exact hb
      · exact absurd hx (ssh_ne_dflt iface.name)
      · exact absurd hx (ssh_ne_addr iface.name)
    · intro hb; exact Or.inl ⟨hb, rfl⟩
  · rw [RemovalManager.check_safety, hm]
    constructor
    · rintro (⟨_, hx⟩ | ⟨hb, _⟩ | ⟨_, hx⟩)
      · exact absurd hx.symm (ssh_ne_dflt iface.name)
      · exact (routeHit_iff sys iface.name).mp hb
      · exact absurd hx (dflt_ne_addr iface.name)
    · intro hb; exact Or.inr (Or.inl ⟨(routeHit_iff sys iface.name).mpr hb, rfl⟩)
  · rw [RemovalManager.check_safety, hm]
    constructor
    · rintro (⟨_, hx⟩ | ⟨_, hx⟩ | ⟨hb, _⟩)
      · exact absurd hx.symm (ssh_ne_addr iface.name)
      · exact absurd hx.symm (dflt_ne_addr iface.name)
      · exact (addrs_iff iface).mp hb
    · intro hb
      exact Or.inr (Or.inr ⟨(addrs_iff iface).mpr hb, rfl⟩)
  · intro hroute haddr
    refine ⟨?_, ?_, dflt_ne_addr iface.name⟩
    · rw [RemovalManager.check_safety, hm]
      exact Or.inr (Or.inl ⟨(routeHit_iff sys iface.name).mpr hroute, rfl⟩)
    · rw [RemovalManager.check_safety, hm]
      exact Or.inr (Or.inr ⟨(addrs_iff iface).mpr (Or.inl haddr), rfl⟩)

/-- An environment in which the default route runs through eth9. -/
def sysRouteEth9 : Sys :=
  { baseSys with routeDefault := some "default via 192.168.1.1 dev eth9 proto dhcp" }

/-- An eth9 snapshot carrying one IPv4 address. -/
def ifaceEth9 : NetInterface :=
  { NetInterface.new "eth9" .Physical with ipv4_addresses := ["192.168.1.7/24"] }

/-- C7 witness: for the default-route interface with an IPv4 address the
safety check surfaces the two distinct warnings, through the theorem. -/
theorem c7_check_safety_witness :
    RemovalManager.dfltWarnStr "eth9" ∈ RemovalManager.check_safety sysRouteEth9 ifaceEth9 ∧
    RemovalManager.addrWarnStr "eth9" ∈ RemovalManager.check_safety sysRouteEth9 ifaceEth9 ∧
    RemovalManager.dfltWarnStr "eth9" ≠ RemovalManager.addrWarnStr "eth9" :=
  (c7_check_safety sysRouteEth9 ifaceEth9).2.2.2 (by rfl) (by decide)

/-! ## Claim C10: SSH check fallback without a usable SSH_CONNECTION -/

/-- Under an unset or unusable SSH_CONNECTION the first stage of
is_ssh_interface yields no verdict. -/
theorem is_ssh_fallback (sys : Sys) (name : String)
    (hs : sys.sshConnection = none ∨
      (∃ s, sys.sshConnection = some s ∧ (splitWhitespaceStr s).length < 3)) :
    is_ssh_interface sys name =
      (match get_default_route_interface sys with
       | .ok (some d) => d == name
       | _ => false) := by
  unfold is_ssh_interface
  rcases hs with h | ⟨s, hes, hlen⟩
  · rw [h]
  · rw [hes]
    have h2 : (splitWhitespaceStr s)[2]? = none :=
      List.getElem?_eq_none (by omega)
    simp only [h2]

/-- C10: when SSH_CONNECTION is unset, or carries fewer than three
whitespace-separated fields, is_ssh_interface answers true exactly when
the route probe names this interface as the default-route interface;
consequently check_safety then emits the SSH warning for the
default-route interface alongside the default-route warning, with no SSH
session present. -/
theorem c10_ssh_fallback (sys : Sys) (iface : NetInterface)
    (hs : sys.sshConnection = none ∨
      (∃ s, sys.sshConnection = some s ∧ (splitWhitespaceStr s).length < 3)) :
    (is_ssh_interface sys iface.name = true ↔
      get_default_route_interface sys = .ok (some iface.name)) ∧
    (get_default_route_interface sys = .ok (some iface.name) →
      RemovalManager.sshWarnStr iface.name ∈ RemovalManager.check_safety sys iface ∧
      RemovalManager.dfltWarnStr iface.name ∈ RemovalManager.check_safety sys iface) := by
  have hbase := is_ssh_fallback sys iface.name hs
  constructor
  · rw [hbase]
    exact routeHit_iff sys iface.name
  · intro hroute
    have hssh : is_ssh_interface sys iface.name = true := by
      rw [hbase]
      exact (routeHit_iff sys iface.name).mpr hroute
    have hm := fun x => mem_ite_triple (RemovalManager.sshWarnStr iface.name)
      (RemovalManager.dfltWarnStr iface.name) (RemovalManager.addrWarnStr iface.name) x
      (is_ssh_interface sys iface.name)
      (match get_default_route_interface sys with
       | .ok (some d) => d == iface.name
       | _ => false)
      (!iface.ipv4_addresses.isEmpty || !iface.ipv6_addresses.isEmpty)
    constructor
    · rw [RemovalManager.check_safety, hm]
      exact Or.inl ⟨hssh, rfl⟩
    · rw [RemovalManager.check_safety, hm]
      exact Or.inr (Or.inl ⟨(routeHit_iff sys iface.name).mpr hroute, rfl⟩)

/-- C10 witness: with no SSH_CONNECTION set and the default route over
eth9, the SSH warning and the default-route warning both appear for
eth9, through the theorem. -/
theorem c10_ssh_fallback_witness :
    RemovalManager.sshWarnStr "eth9" ∈ RemovalManager.check_safety sysRouteEth9 ifaceEth9 ∧
    RemovalManager.dfltWarnStr "eth9" ∈ RemovalManager.check_safety sysRouteEth9 ifaceEth9 :=
  (c10_ssh_fallback sysRouteEth9 ifaceEth9 (Or.inl rfl)).2 (by rfl)

/-! ## Claim C1: failure semantics of remove_interface -/

namespace RemovalManager

/-- Behaviour of a preparatory step followed by deletion: deletion
appears in the trace exactly when the step succeeded, and the whole call
succeeds exactly when the step and the deletion both succeed. -/
theorem andThenDelete_spec (step : List Event × Except String Unit) (rs : RemSys)
    (name : String) (hstep : Event.deleteIface name ∉ step.1) :
    ((Event.deleteIface name ∈ (andThenDelete step rs name).1) ↔ step.2 = .ok ()) ∧
    ((andThenDelete step rs name).2 = .ok () ↔
      (step.2 = .ok () ∧ (rs.ipLinkDelete name).isSome = true)) := by
  obtain ⟨tr, r⟩ := step
  cases r with
  | error e => simp_all [andThenDelete]
  | ok u =>
    simp only at hstep
    cases hd : rs.ipLinkDelete name with
    | some s => simp_all [andThenDelete, remove_interface_only, hd]
    | none => simp_all [andThenDelete, remove_interface_only, hd]

/-- The stop step never attempts a deletion. -/
theorem stop_service_no_delete (rs : RemSys) (iface : NetInterface) (name : String) :
    Event.deleteIface name ∉ (stop_service rs iface).1 := by
  unfold stop_service
  match ho : iface.owner with
  | some (.SystemdService n st t) =>
    cases hs : rs.systemctlStop n <;> simp
  | none => simp
  | some (.DockerContainer a b c) => simp
  | some (.Process a b c) => simp
  | some (.NetworkManager a b) => simp
  | some (.Kernel a) => simp
  | some .Unknown => simp

/-- The stop-and-disable step never attempts a deletion. -/
theorem stop_and_disable_no_delete (rs : RemSys) (iface : NetInterface) (name : String) :
    Event.deleteIface name ∉ (stop_and_disable_service rs iface).1 := by
  unfold stop_and_disable_service
  match ho : iface.owner with
  | some (.SystemdService n st t) =>
    cases hs : rs.systemctlStop n with
    | none => simp [hs]
    | some s => cases hd : rs.systemctlDisable n <;> simp [hs, hd]
  | none => simp
  | some (.DockerContainer a b c) => simp
  | some (.Process a b c) => simp
  | some (.NetworkManager a b) => simp
  | some (.Kernel a) => simp
  | some .Unknown => simp

/-- The container-stop step always reports success and never attempts a
deletion itself. -/
theorem stop_container_ok (rs : RemSys) (iface : NetInterface) (name : String) :
    (stop_container rs iface).2 = .ok () ∧
    Event.deleteIface name ∉ (stop_container rs iface).1 := by
  unfold stop_container
  match ho : iface.owner with
  | some (.DockerContainer i b c) =>
    by_cases hi : (i == "system") = true
    · simp [hi]
    · simp only [Bool.not_eq_true] at hi
      simp [hi]
  | none => simp
  | some (.SystemdService n st t) => simp
  | some (.Process a b c) => simp
  | some (.NetworkManager a b) => simp
  | some (.Kernel a) => simp
  | some .Unknown => simp

/-- The kill step always reports success and never attempts a deletion
itself. -/
theorem kill_process_ok (rs : RemSys) (iface : NetInterface) (name : String) :
    (kill_process rs iface).2 = .ok () ∧
    Event.deleteIface name ∉ (kill_process rs iface).1 := by
  unfold kill_process
  match ho : iface.owner with
  | some (.Process p b c) =>
    by_cases hk : rs.killOk p = true
    · by_cases ha : rs.procAlive p = true
      · simp [hk, ha]
      · simp only [Bool.not_eq_true] at ha
        simp [hk, ha]
    · simp only [Bool.not_eq_true] at hk
      simp [hk]
  | none => simp
  | some (.DockerContainer a b c) => simp
  | some (.SystemdService n st t) => simp
  | some (.NetworkManager a b) => simp
  | some (.Kernel a) => simp
  | some .Unknown => simp

end RemovalManager

/-- An environment in which every systemctl invocation fails while the
deletion command would succeed. -/
def rsStopFails : RemSys := { baseRemSys with ipLinkDelete := fun _ => some "" }

/-- A wg0 snapshot owned by the wg-quick unit. -/
def ifaceWgOwned : NetInterface :=
  { NetInterface.new "wg0" .WireGuard with
    owner := some (.SystemdService "wg-quick@wg0.service" .Active none) }

/-- C1 counterexample: under the stop-and-disable strategy a failing
systemctl stop makes remove_interface return failure although the final
deletion step would have succeeded and is never attempted, so failure is
not returned exactly when the deletion step fails, and a stop failure
does prevent the plan from reaching the deletion step. -/
theorem c1_remove_failure_cex :
    (RemovalManager.remove_interface rsStopFails ifaceWgOwned .StopAndDisableService).2 =
      .error "停止服务 wg-quick@wg0.service 失败" ∧
    (rsStopFails.ipLinkDelete "wg0").isSome = true ∧
    Event.deleteIface "wg0" ∉
      (RemovalManager.remove_interface rsStopFails ifaceWgOwned .StopAndDisableService).1 :=
  ⟨rfl, rfl, by decide⟩

/-- C1 amended: whenever the deletion step is attempted,
remove_interface succeeds exactly when that deletion command succeeds
(an already absent interface fails the command and is reported as a
failure); the deletion step is always reached under the interface-only,
container and kill strategies, whose intermediate failures are only
warnings; the deletion step is skipped only under the two service
strategies, exactly when their systemctl stop or disable step fails, and
that failure is returned to the caller. -/
theorem c1_remove_failure_semantics (rs : RemSys) (iface : NetInterface)
    (strat : RemovalStrategy) :
    (Event.deleteIface iface.name ∈ (RemovalManager.remove_interface rs iface strat).1 →
      ((RemovalManager.remove_interface rs iface strat).2 = .ok () ↔
        (rs.ipLinkDelete iface.name).isSome = true)) ∧
    (Event.deleteIface iface.name ∉ (RemovalManager.remove_interface rs iface strat).1 →
      (RemovalManager.remove_interface rs iface strat).2 ≠ .ok () ∧
      (strat = .StopService ∨ strat = .StopAndDisableService)) ∧
    ((strat = .InterfaceOnly ∨ strat = .StopContainer ∨ strat = .KillProcess) →
      Event.deleteIface iface.name ∈ (RemovalManager.remove_interface rs iface strat).1) := by
  open RemovalManager in
  cases strat with
  | InterfaceOnly =>
    refine ⟨fun _ => ?_, fun hmem => ?_, fun _ => ?_⟩
    · cases hd : rs.ipLinkDelete iface.name <;>
        simp [remove_interface, remove_interface_only, hd]
    · exact absurd (by simp [remove_interface, remove_interface_only]) hmem
    · simp [remove_interface, remove_interface_only]
  | StopService =>
    have hnd := stop_service_no_delete rs iface iface.name
    have hspec := andThenDelete_spec (stop_service rs iface) rs iface.name hnd
    refine ⟨fun hmem => ?_, fun hmem => ?_, fun h => ?_⟩
    · have hok := (hspec.1).mp (by simpa [remove_interface] using hmem)
      rw [show remove_interface rs iface .StopService =
        andThenDelete (stop_service rs iface) rs iface.name from rfl]
      rw [hspec.2]
      simp [hok]
    · constructor
      · intro hok
        have := (hspec.2).mp (by simpa [remove_interface] using hok)
        have hmem2 := (hspec.1).mpr this.1
        exact hmem (by simpa [remove_interface] using hmem2)
      · exact Or.inl rfl
    · rcases h with h | h | h <;> exact absurd h (by decide)
  | StopAndDisableService =>
    have hnd := stop_and_disable_no_delete rs iface iface.name
    have hspec := andThenDelete_spec (stop_and_disable_service rs iface) rs iface.name hnd
    refine ⟨fun hmem => ?_, fun hmem => ?_, fun h => ?_⟩
    · have hok := (hspec.1).mp (by simpa [remove_interface] using hmem)
      rw [show remove_interface rs iface .StopAndDisableService =
        andThenDelete (stop_and_disable_service rs iface) rs iface.name from rfl]
      rw [hspec.2]
      simp [hok]
    · constructor
      · intro hok
        have := (hspec.2).mp (by simpa [remove_interface] using hok)
        have hmem2 := (hspec.1).mpr this.1
        exact hmem (by simpa [remove_interface] using hmem2)
      · exact Or.inr rfl
    · rcases h with h | h | h <;> exact absurd h (by decide)
  | StopContainer =>
    have hsc := stop_container_ok rs iface iface.name
    have hspec := andThenDelete_spec (stop_container rs iface) rs iface.name hsc.2
    have hmem : Event.deleteIface iface.name ∈
        (remove_interface rs iface .StopContainer).1 := by
      have := (hspec.1).mpr hsc.1
      simpa [remove_interface] using this
    refine ⟨fun _ => ?_, fun hm => absurd hmem hm, fun _ => hmem⟩
    · rw [show remove_interface rs iface .StopContainer =
        andThenDelete (stop_container rs iface) rs iface.name from rfl]
      rw [hspec.2]
      simp [hsc.1]
  | KillProcess =>
    have hsc := kill_process_ok rs iface iface.name
    have hspec := andThenDelete_spec (kill_process rs iface) rs iface.name hsc.2
    have hmem : Event.deleteIface iface.name ∈
        (remove_interface rs iface .KillProcess).1 := by
      have := (hspec.1).mpr hsc.1
      simpa [remove_interface] using this
    refine ⟨fun _ => ?_, fun hm => absurd hmem hm, fun _ => hmem⟩
    · rw [show remove_interface rs iface .KillProcess =
        andThenDelete (kill_process rs iface) rs iface.name from rfl]
      rw [hspec.2]
      simp [hsc.1]

/-- C1 witness: under the interface-only strategy the deletion is
attempted, and success is equivalent to the deletion command succeeding,
through the theorem at concrete inputs. -/
theorem c1_remove_failure_semantics_witness :
    ((RemovalManager.remove_interface rsStopFails ifaceWgOwned .InterfaceOnly).2 = .ok () ↔
      (rsStopFails.ipLinkDelete "wg0").isSome = true) ∧
    Event.deleteIface "wg0" ∈
      (RemovalManager.remove_interface rsStopFails ifaceWgOwned .InterfaceOnly).1 :=
  ⟨(c1_remove_failure_semantics rsStopFails ifaceWgOwned .InterfaceOnly).1
    ((c1_remove_failure_semantics rsStopFails ifaceWgOwned .InterfaceOnly).2.2
      (Or.inl rfl)),
   (c1_remove_failure_semantics rsStopFails ifaceWgOwned .InterfaceOnly).2.2 (Or.inl rfl)⟩

/-! ## Claim C8: the kill-process plan -/

/-- An environment in which the graceful kill command fails, the process
stays alive and deletion would succeed. -/
def rsKillFails : RemSys :=
  { baseRemSys with procAlive := fun _ => true, ipLinkDelete := fun _ => some "" }

/-- A tun0 snapshot owned by process 42. -/
def ifaceTunOwned : NetInterface :=
  { NetInterface.new "tun0" .Tun with
    owner := some (.Process 42 "openvpn" "openvpn --config client.conf") }

/-- C8 counterexample: when the graceful kill command itself fails while
the process exists, the plan neither waits the grace period nor sends
the forceful signal, so the forceful signal is not sent exactly when the
process still exists after the grace period. -/
theorem c8_kill_process_cex :
    (RemovalManager.remove_interface rsKillFails ifaceTunOwned .KillProcess).1 =
      [Event.sigTerm 42, Event.deleteIface "tun0"] ∧
    rsKillFails.procAlive 42 = true ∧
    Event.sigKill 42 ∉
      (RemovalManager.remove_interface rsKillFails ifaceTunOwned .KillProcess).1 ∧
    Event.sleepSec 1 ∉
      (RemovalManager.remove_interface rsKillFails ifaceTunOwned .KillProcess).1 :=
  ⟨rfl, rfl, by decide, by decide⟩

/-- C8 amended: when the graceful kill command succeeds the plan sends
the graceful signal, waits the one-second grace period, sends the
forceful signal exactly when the process still exists, and then attempts
deletion, in that order; when the graceful kill command fails the plan
skips the grace period and the forceful signal and proceeds directly to
deletion; in either case the overall result is success exactly when the
deletion command succeeds. -/
theorem c8_kill_process (rs : RemSys) (iface : NetInterface) (pid : Nat) (pn pc : String)
    (ho : iface.owner = some (.Process pid pn pc)) :
    (rs.killOk pid = true →
      (RemovalManager.remove_interface rs iface .KillProcess).1 =
        [Event.sigTerm pid, Event.sleepSec 1] ++
        (if rs.procAlive pid then [Event.sigKill pid] else []) ++
        [Event.deleteIface iface.name]) ∧
    (rs.killOk pid = false →
      (RemovalManager.remove_interface rs iface .KillProcess).1 =
        [Event.sigTerm pid, Event.deleteIface iface.name]) ∧
    ((RemovalManager.remove_interface rs iface .KillProcess).2 = .ok () ↔
      (rs.ipLinkDelete iface.name).isSome = true) := by
  refine ⟨fun hk => ?_, fun hk => ?_, ?_⟩
  · by_cases ha : rs.procAlive pid = true
    · cases hd : rs.ipLinkDelete iface.name <;>
        simp [RemovalManager.remove_interface, RemovalManager.andThenDelete,
          RemovalManager.kill_process, RemovalManager.remove_interface_only, ho, hk, ha, hd]
    · simp only [Bool.not_eq_true] at ha
      cases hd : rs.ipLinkDelete iface.name <;>
        simp [RemovalManager.remove_interface, RemovalManager.andThenDelete,
          RemovalManager.kill_process, RemovalManager.remove_interface_only, ho, hk, ha, hd]
  · cases hd : rs.ipLinkDelete iface.name <;>
      simp [RemovalManager.remove_interface, RemovalManager.andThenDelete,
        RemovalManager.kill_process, RemovalManager.remove_interface_only, ho, hk, hd]
  · by_cases hk : rs.killOk pid = true
    · by_cases ha : rs.procAlive pid = true
      · cases hd : rs.ipLinkDelete iface.name <;>
          simp [RemovalManager.remove_interface, RemovalManager.andThenDelete,
            RemovalManager.kill_process, RemovalManager.remove_interface_only, ho, hk, ha, hd]
      · simp only [Bool.not_eq_true] at ha
        cases hd : rs.ipLinkDelete iface.name <;>
          simp [RemovalManager.remove_interface, RemovalManager.andThenDelete,
            RemovalManager.kill_process, RemovalManager.remove_interface_only, ho, hk, ha, hd]
    · simp only [Bool.not_eq_true] at hk
      cases hd : rs.ipLinkDelete iface.name <;>
        simp [RemovalManager.remove_interface, RemovalManager.andThenDelete,
          RemovalManager.kill_process, RemovalManager.remove_interface_only, ho, hk, hd]

/-- An environment in which the graceful kill succeeds, the process
survives the grace period and deletion succeeds. -/
def rsKillSurvives : RemSys :=
  { baseRemSys with
      killOk := fun _ => true
      procAlive := fun _ => true
      ipLinkDelete := fun _ => some "" }

/-- C8 witness: with a surviving process the trace is graceful signal,
grace period, forceful signal, deletion, in order, through the theorem
at concrete inputs. -/
theorem c8_kill_process_witness :
    (RemovalManager.remove_interface rsKillSurvives ifaceTunOwned .KillProcess).1 =
      [Event.sigTerm 42, Event.sleepSec 1] ++
      (if rsKillSurvives.procAlive 42 then [Event.sigKill 42] else []) ++
      [Event.deleteIface "tun0"] :=
  (c8_kill_process rsKillSurvives ifaceTunOwned 42 "openvpn"
    "openvpn --config client.conf" rfl).1 rfl

/-! ## Claim C2: refresh failure semantics -/

/-- add_ip_addresses succeeds exactly when the per-interface address
probe succeeds. -/
theorem add_ip_ok_iff (sys : Sys) (i : NetInterface) :
    (∃ j, add_ip_addresses sys i = .ok j) ↔ (sys.addrShowOneline i.name).isSome = true := by
  cases h : sys.addrShowOneline i.name <;> simp [add_ip_addresses, h]

/-- A failing per-interface address probe is an error of
add_ip_addresses. -/
theorem add_ip_error (sys : Sys) (i : NetInterface)
    (h : sys.addrShowOneline i.name = none) :
    add_ip_addresses sys i = .error "命令执行失败" := by
  simp [add_ip_addresses, h]

/-- A loop with the question-mark operator fails when any element
fails. -/
theorem exceptMapM_error_of_mem {ε α β : Type} (f : α → Except ε β) (l : List α)
    (i : α) (e : ε) (hi : i ∈ l) (hf : f i = .error e) :
    ∃ e2, exceptMapM f l = .error e2 := by
  induction l with
  | nil => cases hi
  | cons a as ih =>
    rcases List.mem_cons.mp hi with h | h
    · subst h
      exact ⟨e, by simp [exceptMapM, hf]⟩
    · cases ha : f a with
      | error e3 => exact ⟨e3, by simp [exceptMapM, ha]⟩
      | ok b =>
        obtain ⟨e2, h2⟩ := ih h
        exact ⟨e2, by simp [exceptMapM, ha, h2]⟩

/-- A loop with the question-mark operator succeeds when every element
succeeds. -/
theorem exceptMapM_ok {ε α β : Type} (f : α → Except ε β) (l : List α)
    (h : ∀ i ∈ l, ∃ y, f i = .ok y) :
    ∃ ys, exceptMapM f l = .ok ys := by
  induction l with
  | nil => exact ⟨[], rfl⟩
  | cons a as ih =>
    obtain ⟨y, hy⟩ := h a (List.mem_cons_self a as)
    obtain ⟨ys, hys⟩ := ih (fun i hi => h i (List.mem_cons_of_mem a hi))
    exact ⟨y :: ys, by simp [exceptMapM, hy, hys]⟩

/-- The link line of the tun0 counterexample refresh. -/
def linkOutTun0 : String :=
  "2: tun0: <POINTOPOINT,MULTICAST,NOARP,UP,LOWER_UP> mtu 1500 qdisc fq state UP\n"

/-- An environment whose link probe answers with one tun0 line while
every per-interface address probe fails. -/
def sysAddrFails : Sys :=
  { baseSys with linkShow := some linkOutTun0 }

/-- The interface parsed from the tun0 link line. -/
def ifaceTun0 : NetInterface :=
  { NetInterface.new "tun0" .Tun with state := .Up }

/-- C2 counterexample: a successful link probe yields one interface,
and then the failing per-interface address probe fails the whole
refresh instead of degrading to empty address results. -/
theorem c2_refresh_failures_cex :
    sysAddrFails.linkShow = some linkOutTun0 ∧
    parseLinks sysAddrFails (rustLines linkOutTun0) = .ok [ifaceTun0] ∧
    sysAddrFails.addrShowOneline "tun0" = none ∧
    list_interfaces sysAddrFails = .error "命令执行失败" :=
  ⟨rfl, rfl, rfl, rfl⟩

/-- C2 amended: a failing link probe fails the refresh; a failing
per-interface address probe also fails the whole refresh; when the link
probe and every per-interface address probe succeed the refresh
succeeds, whatever the DNS and routing probes return, so only those
secondary enrichments degrade gracefully. -/
theorem c2_refresh_failures (sys : Sys) :
    (sys.linkShow = none → list_interfaces sys = .error "命令执行失败") ∧
    (∀ out ifaces i, sys.linkShow = some out →
      parseLinks sys (rustLines out) = .ok ifaces →
      i ∈ ifaces → sys.addrShowOneline i.name = none →
      ∃ e, list_interfaces sys = .error e) ∧
    (∀ out ifaces, sys.linkShow = some out →
      parseLinks sys (rustLines out) = .ok ifaces →
      (∀ i ∈ ifaces, (sys.addrShowOneline i.name).isSome = true) →
      ∃ l, list_interfaces sys = .ok l) := by
  refine ⟨fun h => ?_, fun out ifaces i hout hparse hi hprobe => ?_,
    fun out ifaces hout hparse hprobe => ?_⟩
  · simp [list_interfaces, runCmd, h]
  · obtain ⟨e2, h2⟩ := exceptMapM_error_of_mem (add_ip_addresses sys) ifaces i _ hi
      (add_ip_error sys i hprobe)
    exact ⟨e2, by simp [list_interfaces, runCmd, hout, hparse, h2]⟩
  · have hall : ∀ i ∈ ifaces, ∃ y, add_ip_addresses sys i = .ok y := by
      intro i hi
      exact (add_ip_ok_iff sys i).mpr (hprobe i hi)
    obtain ⟨ys, hys⟩ := exceptMapM_ok (add_ip_addresses sys) ifaces hall
    exact ⟨ys.map (fun i => { i with owner := OwnerDetector.detect sys i }),
      by simp [list_interfaces, runCmd, hout, hparse, hys]⟩

/-- An environment like the counterexample one but whose address probe
answers, while the DNS and routing probes still fail. -/
def sysAddrOk : Sys :=
  { baseSys with
      linkShow := some linkOutTun0
      addrShowOneline := fun _ => some "2: tun0    inet 10.8.0.2/24 scope global tun0\n" }

/-- C2 witness: the amended theorem at concrete inputs, on both the
failing side and the succeeding side. -/
theorem c2_refresh_failures_witness :
    (∃ e, list_interfaces sysAddrFails = .error e) ∧
    (∃ l, list_interfaces sysAddrOk = .ok l) :=
  ⟨(c2_refresh_failures sysAddrFails).2.1 linkOutTun0 [ifaceTun0] ifaceTun0
      rfl rfl (List.mem_singleton.mpr rfl) rfl,
   (c2_refresh_failures sysAddrOk).2.2 linkOutTun0 [ifaceTun0]
      rfl rfl (fun i hi => by rw [List.mem_singleton.mp hi]; rfl)⟩

/-! ## Claim C3: structured IPv4 configuration -/

/-- The last element of a cons is the last of the tail, else the
head. -/
theorem getLast?_cons_eq {α : Type} (a : α) (l : List α) :
    (a :: l).getLast? =
      match l.getLast? with
      | some x => some x
      | none => some a := by
  cases l with
  | nil => rfl
  | cons b t =>
    rw [List.getLast?_cons_cons]
    cases h : (b :: t).getLast? with
    | some x => simp
    | none =>
      exfalso
      induction t generalizing b with
      | nil => simp at h
      | cons c u ih =>
        rw [List.getLast?_cons_cons] at h
        exact ih c h

/-- One address line leaves the structured configuration unchanged or
overwrites it with the configuration that line contributes. -/
theorem addrLineStep_config (sys : Sys) (name : String) (i : NetInterface) (line : String) :
    (addrLineStep sys name i line).ipv4_config =
      match ipv4ConfigOfLine sys name line with
      | some c => some c
      | none => i.ipv4_config := by
  unfold addrLineStep ipv4ConfigOfLine
  by_cases h4 : strContains line "inet " = true
  · simp only [h4, if_pos]
    cases ha : extract_ipv4_address line with
    | none => simp
    | some addr =>
      cases hs : splitOnceChar '/' addr with
      | none => simp [hs]
      | some pr =>
        obtain ⟨ip, prefixStr⟩ := pr
        cases hp : parseU8? prefixStr with
        | none => simp [hs, hp]
        | some p => simp [hs, hp]
  · simp only [Bool.not_eq_true] at h4
    simp only [h4, Bool.false_eq_true, if_false]
    by_cases h6 : strContains line "inet6 " = true
    · simp only [h6, if_pos]
      cases ha : extract_ipv6_address line with
      | none => simp
      | some addr => simp
    · simp only [Bool.not_eq_true] at h6
      simp [h6]

/-- The DNS enrichment never touches the structured IPv4
configuration. -/
theorem applyDns_config (sys : Sys) (i : NetInterface) :
    (applyDns sys i).ipv4_config = i.ipv4_config := by
  unfold applyDns
  cases h : get_dns_servers sys with
  | ok dns => by_cases he : dns.isEmpty <;> simp [he]
  | error e => rfl

/-- After folding all address lines the structured configuration is the
one contributed by the last configuring line, or the initial one when no
line configures. -/
theorem foldl_config (sys : Sys) (name : String) (lines : List String) :
    ∀ i : NetInterface,
      ((lines.foldl (addrLineStep sys name) i).ipv4_config) =
        match (lines.filterMap (ipv4ConfigOfLine sys name)).getLast? with
        | some c => some c
        | none => i.ipv4_config := by
  induction lines with
  | nil => intro i; rfl
  | cons l ls ih =>
    intro i
    rw [List.foldl_cons, List.filterMap_cons, ih (addrLineStep sys name i l)]
    cases h : ipv4ConfigOfLine sys name l with
    | none =>
      simp only []
      cases hr : (ls.filterMap (ipv4ConfigOfLine sys name)).getLast? with
      | some x => simp
      | none => simp [addrLineStep_config, h]
    | some c =>
      simp only []
      rw [getLast?_cons_eq]
      cases hr : (ls.filterMap (ipv4ConfigOfLine sys name)).getLast? with
      | some x => simp
      | none => simp [addrLineStep_config, h]

/-- Every configuration a line contributes carries the gateway looked up
by the per-interface routing probe. -/
theorem configLine_gateway (sys : Sys) (name line : String) (c : Ipv4Config)
    (h : ipv4ConfigOfLine sys name line = some c) :
    c.gateway = exceptToOption (get_default_gateway sys name) := by
  unfold ipv4ConfigOfLine at h
  by_cases h4 : strContains line "inet " = true
  · simp only [h4, if_pos] at h
    cases ha : extract_ipv4_address line with
    | none => rw [ha] at h; cases h
    | some addr =>
      simp only [ha] at h
      cases hs : splitOnceChar '/' addr with
      | none => simp only [hs] at h; cases h
      | some pr =>
        obtain ⟨ip, prefixStr⟩ := pr
        simp only [hs] at h
        cases hpp : parseU8? prefixStr with
        | none => simp only [hpp] at h; cases h
        | some p =>
          simp only [hpp, Option.some.injEq] at h
          rw [← h]
  · simp only [Bool.not_eq_true] at h4
    simp [h4] at h

/-- C3: whenever the address probe answers, the call succeeds and the
structured IPv4 configuration is the one contributed by the last address
line that carries an IPv4 address with a u8 prefix, each such line
overwriting the previous configuration; every contributed configuration
takes its gateway from the per-interface routing probe, and an absent
default route, whether a failing probe or an output without a default
via capture, leaves the gateway empty without raising an error. -/
theorem c3_ipv4_config (sys : Sys) (iface : NetInterface) (out : String)
    (hp : sys.addrShowOneline iface.name = some out) :
    (∃ j, add_ip_addresses sys iface = .ok j ∧
      j.ipv4_config =
        match ((rustLines out).filterMap (ipv4ConfigOfLine sys iface.name)).getLast? with
        | some c => some c
        | none => iface.ipv4_config) ∧
    (∀ c ∈ (rustLines out).filterMap (ipv4ConfigOfLine sys iface.name),
      c.gateway = exceptToOption (get_default_gateway sys iface.name)) ∧
    ((sys.routeDefaultDev iface.name = none ∨
      (∃ rout, sys.routeDefaultDev iface.name = some rout ∧
        leftmostPos matchDefaultViaAt rout.data = none)) →
      exceptToOption (get_default_gateway sys iface.name) = none) := by
  refine ⟨?_, fun c hc => ?_, fun h => ?_⟩
  · refine ⟨applyDns sys ((rustLines out).foldl (addrLineStep sys iface.name) iface),
      by simp [add_ip_addresses, hp], ?_⟩
    rw [applyDns_config, foldl_config]
  · obtain ⟨line, _, hline⟩ := List.mem_filterMap.mp hc
    exact configLine_gateway sys iface.name line c hline
  · rcases h with h | ⟨rout, hro, hnone⟩
    · simp [get_default_gateway, runCmd, h, exceptToOption]
    · simp [get_default_gateway, runCmd, hro, hnone, exceptToOption]

/-- An address listing with two IPv4 lines. -/
def addrOutTwo : String :=
  "2: eth0    inet 10.0.0.1/24 brd 10.0.0.255 scope global eth0\n" ++
  "2: eth0    inet 10.0.0.2/25 scope global secondary eth0\n"

/-- An environment whose address probe answers with the two-line
listing and whose routing probe fails. -/
def sysAddrTwo : Sys :=
  { baseSys with addrShowOneline := fun _ => some addrOutTwo }

/-- C3 counterexample: with two IPv4 address lines both addresses are
collected, but the structured configuration holds the second address,
not the first, so the configuration is not populated from the first
IPv4 line. -/
theorem c3_ipv4_config_cex :
    (match add_ip_addresses sysAddrTwo (NetInterface.new "eth0" .Physical) with
     | .ok j => j.ipv4_addresses
     | .error _ => []) = ["10.0.0.1/24", "10.0.0.2/25"] ∧
    (match add_ip_addresses sysAddrTwo (NetInterface.new "eth0" .Physical) with
     | .ok j => j.ipv4_config
     | .error _ => none) =
      some (Ipv4Config.mk "10.0.0.2" "255.255.255.128" 25 none) ∧
    ("10.0.0.2" : String) ≠ "10.0.0.1" :=
  ⟨rfl, rfl, by decide⟩

/-- C3 witness: the theorem at the concrete two-line listing; the
configuration is the last contributed one and the unavailable routing
probe leaves the gateway empty. -/
theorem c3_ipv4_config_witness :
    (∃ j, add_ip_addresses sysAddrTwo (NetInterface.new "eth0" .Physical) = .ok j ∧
      j.ipv4_config =
        match ((rustLines addrOutTwo).filterMap
          (ipv4ConfigOfLine sysAddrTwo "eth0")).getLast? with
        | some c => some c
        | none => (NetInterface.new "eth0" .Physical).ipv4_config) ∧
    exceptToOption (get_default_gateway sysAddrTwo "eth0") = none :=
  ⟨(c3_ipv4_config sysAddrTwo (NetInterface.new "eth0" .Physical) addrOutTwo rfl).1,
   (c3_ipv4_config sysAddrTwo (NetInterface.new "eth0" .Physical) addrOutTwo rfl).2.2
     (Or.inl rfl)⟩
